import Mathlib

/-!
Shallow embedding of the streaming-translation core of a chat-completions
proxy (source file `yuanbao.rs`, duplicated in `service.rs`).  The Rust code
consumes an upstream SSE stream, classifies each frame into semantic chat
events, and delivers them over an unbounded FIFO channel; the embedding
models one run of `Yuanbao::process_sse` as a pure function from the sequence
of stream poll results to the full sequence of events observed on the channel
before it closes.
-/

/-- Minimal JSON value model for the payload of an SSE message frame, as
produced by `serde_json` parsing in the source. -/
inductive Json where
  | null : Json
  | bool (b : Bool) : Json
  | num (n : Int) : Json
  | str (s : String) : Json
  | arr (elems : List Json) : Json
  | obj (fields : List (String × Json)) : Json

/-- Field access `value[key]` of serde_json: on an object, the field's value
(`Null` when the key is missing); on any non-object value, `Null`. -/
def Json.index (v : Json) (k : String) : Json :=
  match v with
  | .obj fields =>
    match fields.lookup k with
    | some x => x
    | none => .null
  | _ => .null

/-- `Value::as_str`: `some` exactly on JSON strings. -/
def Json.asStr : Json → Option String
  | .str s => some s
  | _ => none

/-- `value[key].as_str().unwrap_or("")` as used throughout `process_sse`. -/
def Json.getStr (v : Json) (k : String) : String :=
  (v.index k).asStr.getD ""

/-- `ChatCompletionMessageType` from the source. -/
inductive ChatCompletionMessageType where
  | Think : ChatCompletionMessageType
  | Msg : ChatCompletionMessageType
  deriving DecidableEq

/-- `ChatCompletionMessage` from the source: one classified content fragment. -/
structure ChatCompletionMessage where
  type : ChatCompletionMessageType
  text : String
  deriving DecidableEq

/-- `ChatCompletionEvent` from the source.  The `Error` variant exists in the
Rust enum but is never produced by `process_sse`; its payload is modelled as
a string. -/
inductive ChatCompletionEvent where
  | Message (m : ChatCompletionMessage) : ChatCompletionEvent
  | Error (e : String) : ChatCompletionEvent
  | Finish (reason : String) : ChatCompletionEvent
  deriving DecidableEq

/-- Whether an event is the terminal `Finish` marker. -/
def ChatCompletionEvent.isFinish : ChatCompletionEvent → Bool
  | .Finish _ => true
  | _ => false

/-- One result of polling the upstream SSE stream (`sse.next()`), i.e. one
iteration of the `process_sse` loop.  `message` carries the SSE event name
and the result of `serde_json::from_str` on its data (`none` models a data
payload on which parsing fails).  `errStreamEnded` is
`Err(Error::StreamEnded)`, the clean end-of-stream signal; `errOther` is any
other transport/protocol error.  One run of the stream is a finite list of
poll results; exhausting the list models `sse.next()` returning `None` (the
`else` branch of the `select!`). -/
inductive SsePoll where
  | openEv : SsePoll
  | message (event : String) (data : Option Json) : SsePoll
  | errStreamEnded : SsePoll
  | errOther : SsePoll

/-- A poll result that is not a stream-level error. -/
def SsePoll.isData : SsePoll → Bool
  | .openEv => true
  | .message _ _ => true
  | .errStreamEnded => false
  | .errOther => false

/-- One run of `Yuanbao::process_sse`, returning the full sequence of events
sent on the channel (in send order) before the channel closes.  The first
argument is the running `finish_reason`, initially `"stop"`.  Mirrors the
Rust loop: `Open` is a no-op; a message frame whose event name is not
"message", or whose data fails to parse, is skipped; a "think" frame emits a
`Think` fragment unless its `content` is empty; a "text" frame always emits a
`Msg` fragment from its `msg` field; any other parsed frame only overwrites
the finish reason when its `stopReason` is non-empty; `StreamEnded` (or
stream exhaustion) breaks the loop, after which exactly one `Finish` is sent;
any other stream error returns early, closing the channel with no `Finish`. -/
def processSse : String → List SsePoll → List ChatCompletionEvent
  | fr, [] => [ChatCompletionEvent.Finish fr]
  | fr, SsePoll.openEv :: rest => processSse fr rest
  | fr, SsePoll.errStreamEnded :: _ => [ChatCompletionEvent.Finish fr]
  | _, SsePoll.errOther :: _ => []
  | fr, SsePoll.message event data :: rest =>
    if event ≠ "message" then processSse fr rest
    else
      match data with
      | none => processSse fr rest
      | some v =>
        if v.getStr "type" = "think" then
          if v.getStr "content" = "" then processSse fr rest
          else ChatCompletionEvent.Message ⟨.Think, v.getStr "content"⟩ :: processSse fr rest
        else if v.getStr "type" = "text" then
          ChatCompletionEvent.Message ⟨.Msg, v.getStr "msg"⟩ :: processSse fr rest
        else
          processSse (if v.getStr "stopReason" = "" then fr else v.getStr "stopReason") rest

/-- The events `process_sse` sends for a single poll result.  The loop body's
sends do not depend on the running finish reason, so this is a function of
the poll alone. -/
def emit : SsePoll → List ChatCompletionEvent
  | SsePoll.message event data =>
    if event ≠ "message" then []
    else
      match data with
      | none => []
      | some v =>
        if v.getStr "type" = "think" then
          if v.getStr "content" = "" then []
          else [ChatCompletionEvent.Message ⟨.Think, v.getStr "content"⟩]
        else if v.getStr "type" = "text" then
          [ChatCompletionEvent.Message ⟨.Msg, v.getStr "msg"⟩]
        else []
  | _ => []

/-- How a single poll result updates the running `finish_reason`. -/
def updateReason (fr : String) : SsePoll → String
  | SsePoll.message event data =>
    if event ≠ "message" then fr
    else
      match data with
      | none => fr
      | some v =>
        if v.getStr "type" = "think" then fr
        else if v.getStr "type" = "text" then fr
        else if v.getStr "stopReason" = "" then fr else v.getStr "stopReason"
  | _ => fr

/-- The `stopReason` overwrite carried by a poll result, when any: a parsed
"message" frame whose `type` is neither "think" nor "text" and whose
`stopReason` field is non-empty. -/
def stopReasonOf : SsePoll → Option String
  | SsePoll.message event data =>
    if event ≠ "message" then none
    else
      match data with
      | none => none
      | some v =>
        if v.getStr "type" = "think" then none
        else if v.getStr "type" = "text" then none
        else if v.getStr "stopReason" = "" then none else some (v.getStr "stopReason")
  | _ => none

/-- `ChatMessage` from the source: one turn of the conversation. -/
structure ChatMessage where
  role : String
  content : Option String
  reasoning_content : Option String

/-- `ChatMessages` from the source: ordered conversation history. -/
structure ChatMessages where
  msgs : List ChatMessage

/-- Rust `str::trim`: the string with whitespace stripped from both ends,
written over the character list so that it evaluates. -/
def rustTrim (s : String) : String :=
  ⟨((s.data.dropWhile Char.isWhitespace).reverse.dropWhile Char.isWhitespace).reverse⟩

/-- One block of the multi-message rendering:
`#[<role, trimmed>]` newline, trimmed content, blank line. -/
def messageBlock (m : ChatMessage) : String :=
  "#[" ++ rustTrim m.role ++ "]\n" ++ rustTrim (m.content.getD "") ++ "\n\n"

/-- `impl Display for ChatMessages`: fails on the empty sequence; renders a
single message's content verbatim (empty string when `content` is `None`);
renders two or more messages as concatenated `messageBlock`s in order. -/
def render (ms : ChatMessages) : Except Unit String :=
  match ms.msgs with
  | [] => Except.error ()
  | [m] => Except.ok (m.content.getD "")
  | arr => Except.ok (String.join (arr.map messageBlock))

/-- `ChatModel` from the source. -/
inductive ChatModel where
  | DeepSeekV3 : ChatModel
  | DeepSeekR1 : ChatModel
  deriving DecidableEq

/-- `impl FromStr for ChatModel`. -/
def ChatModel.from_str (s : String) : Except String ChatModel :=
  if s = "deepseek-r1" then Except.ok ChatModel.DeepSeekR1
  else if s = "deepseek-v3" then Except.ok ChatModel.DeepSeekV3
  else Except.error "invalid model"

/-- `ChatModel::as_yuanbao_string`: the upstream-protocol identifier. -/
def ChatModel.as_yuanbao_string : ChatModel → String
  | ChatModel.DeepSeekV3 => "deep_seek_v3"
  | ChatModel.DeepSeekR1 => "deep_seek"

/-- `ChatModel::as_common_string`: the public-protocol name. -/
def ChatModel.as_common_string : ChatModel → String
  | ChatModel.DeepSeekV3 => "deepseek-v3"
  | ChatModel.DeepSeekR1 => "deepseek-r1"

/-- `ChatCompletionRequest` from the source. -/
structure ChatCompletionRequest where
  messages : ChatMessages
  chat_model : ChatModel

/-- Outcome of `EventSource::new(...)` inside `create_completion`.  In
reqwest-eventsource, `EventSource::new` performs no network traffic: it only
clones the request builder for later (re)connection and can fail only with
`CannotCloneRequestError`.  The HTTP request itself is issued when the stream
is first polled — here inside the spawned `process_sse` task — so handshake
failures (transport error, non-success status before any event) surface as
`Err` items from `sse.next()`, i.e. as `SsePoll.errOther` at the head of the
poll list, not as a failure of `EventSource::new`. -/
inductive UpstreamOpen where
  | ok : UpstreamOpen
  | failed : UpstreamOpen

/-- The synchronous failure modes of `create_completion`. -/
inductive CompletionError where
  | renderPanic : CompletionError
  | cannotCreateSource : CompletionError
  deriving DecidableEq

/-- `Yuanbao::create_completion`, as observed by its caller: either a
synchronous failure (the caller gets no channel), or the full observable
content of the returned channel.  `request.messages.to_string()` panics when
the `Display` implementation returns an error (empty message list); that
panic aborts the call synchronously before the upstream request is built and
is modelled as the `renderPanic` outcome.  On success the spawned
`process_sse` task is the sole producer for the fresh unbounded FIFO channel,
so the channel's observable content is exactly `processSse "stop" polls`. -/
def create_completion (request : ChatCompletionRequest) (src : UpstreamOpen)
    (polls : List SsePoll) : Except CompletionError (List ChatCompletionEvent) :=
  match render request.messages with
  | Except.error _ => Except.error CompletionError.renderPanic
  | Except.ok _prompt =>
    match src with
    | UpstreamOpen.failed => Except.error CompletionError.cannotCreateSource
    | UpstreamOpen.ok => Except.ok (processSse "stop" polls)

/-- A well-formed upstream "text" frame carrying `msg` value `s`. -/
def textFrame (s : String) : SsePoll :=
  SsePoll.message "message" (some (Json.obj [("type", Json.str "text"), ("msg", Json.str s)]))

/-- A well-formed upstream "think" frame carrying `content` value `s`. -/
def thinkFrame (s : String) : SsePoll :=
  SsePoll.message "message" (some (Json.obj [("type", Json.str "think"), ("content", Json.str s)]))

/-- A non-think, non-text frame carrying `stopReason` value `s`. -/
def stopFrame (s : String) : SsePoll :=
  SsePoll.message "message" (some (Json.obj [("type", Json.str "s5"), ("stopReason", Json.str s)]))

/-- A concrete well-formed request: one user message, model DeepSeekR1. -/
def req0 : ChatCompletionRequest :=
  ⟨⟨[⟨"user", some "hi", none⟩]⟩, ChatModel.DeepSeekR1⟩

/-- C4: an SSE "message" event whose data payload fails to parse as JSON is
discarded and the stream continues — no event is emitted for it and the parse
error is never surfaced; concretely, one malformed payload between two valid
"text" frames yields exactly two `Msg` messages followed by `Finish`. -/
theorem c4_malformed_frame_skipped :
    (∀ (fr : String) (rest : List SsePoll),
        processSse fr (SsePoll.message "message" none :: rest) = processSse fr rest)
    ∧ processSse "stop" [textFrame "a", SsePoll.message "message" none, textFrame "b"]
        = [ChatCompletionEvent.Message ⟨ChatCompletionMessageType.Msg, "a"⟩,
           ChatCompletionEvent.Message ⟨ChatCompletionMessageType.Msg, "b"⟩,
           ChatCompletionEvent.Finish "stop"] := by
  constructor
  · intro fr rest
    simp [processSse]
  · rfl

/-- C7: a single-element conversation renders to that element's content
verbatim (empty when absent); a conversation of two or more messages renders
to the in-order concatenation of header blocks, and the concrete two-message
example renders to the expected flattened prompt. -/
theorem c7_render_blocks (m m₁ m₂ : ChatMessage) (rest : List ChatMessage) :
    render ⟨[m]⟩ = Except.ok (m.content.getD "")
    ∧ render ⟨m₁ :: m₂ :: rest⟩
        = Except.ok (String.join ((m₁ :: m₂ :: rest).map messageBlock))
    ∧ render ⟨[⟨"user", some "a", none⟩, ⟨"assistant", some "b", none⟩]⟩
        = Except.ok "#[user]\na\n\n#[assistant]\nb\n\n" := by
  refine ⟨rfl, rfl, ?_⟩
  rfl

/-- C8: rendering the empty conversation fails with a formatting error rather
than producing the empty string, and a completion request with an empty
message list fails synchronously — uniformly in every upstream outcome, so
before any upstream call is made. -/
theorem c8_empty_messages_rejected :
    render ⟨[]⟩ = Except.error ()
    ∧ ∀ (model : ChatModel) (src : UpstreamOpen) (polls : List SsePoll),
        create_completion ⟨⟨[]⟩, model⟩ src polls
          = Except.error CompletionError.renderPanic := by
  exact ⟨rfl, fun _ _ _ => rfl⟩

/-- C9: model parsing maps "deepseek-r1" to `DeepSeekR1` and "deepseek-v3" to
`DeepSeekV3`, every other string to the error "invalid model", and the
upstream identifier of `DeepSeekV3` is "deep_seek_v3". -/
theorem c9_model_parsing (s : String) :
    ChatModel.from_str "deepseek-r1" = Except.ok ChatModel.DeepSeekR1
    ∧ ChatModel.from_str "deepseek-v3" = Except.ok ChatModel.DeepSeekV3
    ∧ (s ≠ "deepseek-r1" → s ≠ "deepseek-v3" →
        ChatModel.from_str s = Except.error "invalid model")
    ∧ ChatModel.as_yuanbao_string ChatModel.DeepSeekV3 = "deep_seek_v3" := by
  refine ⟨by rfl, by rfl, ?_, by rfl⟩
  intro h₁ h₂
  simp [ChatModel.from_str, h₁, h₂]

/-- C9 witness: the general branch evaluated at the concrete string "bogus". -/
theorem c9_model_parsing_witness :
    ChatModel.from_str "bogus" = Except.error "invalid model" :=
  (c9_model_parsing "bogus").2.2.1 (by decide) (by decide)

/-- C10: parsing a model's public name round-trips — `from_str` after
`as_common_string` is the identity on `ChatModel`. -/
theorem c10_model_roundtrip (m : ChatModel) :
    ChatModel.from_str (ChatModel.as_common_string m) = Except.ok m := by
  cases m <;> rfl

/-- One step of the loop on a non-error poll: the events of that poll are
sent first, then the loop continues with the updated finish reason. -/
theorem processSse_cons_data (fr : String) (p : SsePoll) (rest : List SsePoll)
    (h : p.isData = true) :
    processSse fr (p :: rest) = emit p ++ processSse (updateReason fr p) rest := by
  cases p with
  | openEv => simp [processSse, emit, updateReason]
  | errStreamEnded => simp [SsePoll.isData] at h
  | errOther => simp [SsePoll.isData] at h
  | message event data =>
    by_cases he : event = "message"
    · subst he
      cases data with
      | none => simp [processSse, emit, updateReason]
      | some v =>
        by_cases ht : v.getStr "type" = "think"
        · by_cases hc : v.getStr "content" = ""
          · simp [processSse, emit, updateReason, ht, hc]
          · simp [processSse, emit, updateReason, ht, hc]
        · by_cases hx : v.getStr "type" = "text"
          · simp [processSse, emit, updateReason, ht, hx]
          · simp [processSse, emit, updateReason, ht, hx]
    · simp [processSse, emit, updateReason, he]

/-- The per-poll events are always content fragments, never `Finish`. -/
theorem emit_not_finish (p : SsePoll) (e : ChatCompletionEvent) (he : e ∈ emit p) :
    e.isFinish = false := by
  cases p with
  | openEv => simp [emit] at he
  | errStreamEnded => simp [emit] at he
  | errOther => simp [emit] at he
  | message event data =>
    simp only [emit] at he
    split at he
    · simp at he
    · rcases data with _ | v
      · simp at he
      · simp only at he
        split at he
        · split at he
          · simp at he
          · simp at he
            subst he
            rfl
        · split at he
          · simp at he
            subst he
            rfl
          · simp at he

/-- A clean run (no error poll) decomposes into the in-order concatenation of
the per-poll events followed by one `Finish` with the folded reason. -/
theorem processSse_clean_decomp (polls : List SsePoll) (fr : String)
    (h : polls.all SsePoll.isData = true) :
    processSse fr polls
      = (polls.map emit).flatten ++ [ChatCompletionEvent.Finish (polls.foldl updateReason fr)] := by
  induction polls generalizing fr with
  | nil => simp [processSse]
  | cons p rest ih =>
    rw [List.all_cons, Bool.and_eq_true] at h
    rw [processSse_cons_data fr p rest h.1, ih (updateReason fr p) h.2]
    simp

/-- The update of the running finish reason by one poll is exactly
`stopReasonOf` with the previous reason as default. -/
theorem updateReason_eq_stopReasonOf (fr : String) (p : SsePoll) :
    updateReason fr p = (stopReasonOf p).getD fr := by
  cases p with
  | openEv => rfl
  | errStreamEnded => rfl
  | errOther => rfl
  | message event data =>
    by_cases he : event = "message"
    · subst he
      cases data with
      | none => rfl
      | some v =>
        by_cases ht : v.getStr "type" = "think"
        · simp [updateReason, stopReasonOf, ht]
        · by_cases hx : v.getStr "type" = "text"
          · simp [updateReason, stopReasonOf, ht, hx]
          · by_cases hs : v.getStr "stopReason" = ""
            · simp [updateReason, stopReasonOf, ht, hx, hs]
            · simp [updateReason, stopReasonOf, ht, hx, hs]
    · simp [updateReason, stopReasonOf, he]

/-- Folding the reason updates over the whole stream keeps exactly the last
non-empty `stopReason` of a non-think, non-text frame, with the initial
reason as default. -/
theorem foldl_updateReason (polls : List SsePoll) (fr : String) :
    polls.foldl updateReason fr = (polls.filterMap stopReasonOf).getLastD fr := by
  induction polls generalizing fr with
  | nil => rfl
  | cons p rest ih =>
    rw [List.foldl_cons, ih (updateReason fr p), updateReason_eq_stopReasonOf fr p]
    cases hp : stopReasonOf p with
    | none => simp only [List.filterMap_cons, hp, Option.getD_none]
    | some s => simp only [List.filterMap_cons, hp, Option.getD_some, List.getLastD_cons]

/-- No event of a clean prefix's emissions is a `Finish`. -/
theorem flatten_emit_not_finish (polls : List SsePoll) (e : ChatCompletionEvent)
    (he : e ∈ (polls.map emit).flatten) : e.isFinish = false := by
  rw [List.mem_flatten] at he
  obtain ⟨l, hl, hel⟩ := he
  rw [List.mem_map] at hl
  obtain ⟨p, _, rfl⟩ := hl
  exact emit_not_finish p e hel

/-- The loop breaks at the `StreamEnded` signal: anything after it on the
model stream is ignored, the run equals the run of the clean prefix. -/
theorem processSse_streamEnded (polls : List SsePoll) (fr : String) (rest : List SsePoll)
    (h : polls.all SsePoll.isData = true) :
    processSse fr (polls ++ SsePoll.errStreamEnded :: rest) = processSse fr polls := by
  induction polls generalizing fr with
  | nil => simp [processSse]
  | cons p ps ih =>
    rw [List.all_cons, Bool.and_eq_true] at h
    rw [List.cons_append, processSse_cons_data fr p _ h.1,
      processSse_cons_data fr p ps h.1, ih (updateReason fr p) h.2]

/-- The loop returns early at a non-`StreamEnded` stream error: the run is
exactly the emissions of the prefix before the error, with no `Finish`. -/
theorem processSse_errOther (polls : List SsePoll) (fr : String) (rest : List SsePoll)
    (h : polls.all SsePoll.isData = true) :
    processSse fr (polls ++ SsePoll.errOther :: rest) = (polls.map emit).flatten := by
  induction polls generalizing fr with
  | nil => simp [processSse]
  | cons p ps ih =>
    rw [List.all_cons, Bool.and_eq_true] at h
    rw [List.cons_append, processSse_cons_data fr p _ h.1, ih (updateReason fr p) h.2]
    simp

/-- C1: on a cleanly ending upstream stream the channel carries the per-frame
events in exactly classification order, followed by exactly one `Finish`,
which is the last item before the channel closes; a `StreamEnded` signal
after the same frames yields the identical output. -/
theorem c1_event_order_single_finish (polls : List SsePoll)
    (h : polls.all SsePoll.isData = true) :
    processSse "stop" polls
      = (polls.map emit).flatten
        ++ [ChatCompletionEvent.Finish (polls.foldl updateReason "stop")]
    ∧ (∀ e ∈ (polls.map emit).flatten, e.isFinish = false)
    ∧ (processSse "stop" polls).countP ChatCompletionEvent.isFinish = 1
    ∧ (processSse "stop" polls).getLast?
        = some (ChatCompletionEvent.Finish (polls.foldl updateReason "stop"))
    ∧ ∀ rest, processSse "stop" (polls ++ SsePoll.errStreamEnded :: rest)
        = processSse "stop" polls := by
  have hd := processSse_clean_decomp polls "stop" h
  have h0 : (polls.map emit).flatten.countP ChatCompletionEvent.isFinish = 0 := by
    rw [List.countP_eq_zero]
    intro e he
    simp [flatten_emit_not_finish polls e he]
  refine ⟨hd, fun e he => flatten_emit_not_finish polls e he, ?_, ?_, ?_⟩
  · rw [hd, List.countP_append, h0]
    rfl
  · rw [hd, List.getLast?_concat]
  · intro rest
    exact processSse_streamEnded polls "stop" rest h

/-- C1 witness: a concrete clean stream, with the conclusion evaluated. -/
theorem c1_witness :
    ([SsePoll.openEv, thinkFrame "t", textFrame "a", stopFrame "length"].all
        SsePoll.isData = true)
    ∧ processSse "stop" [SsePoll.openEv, thinkFrame "t", textFrame "a", stopFrame "length"]
        = [ChatCompletionEvent.Message ⟨ChatCompletionMessageType.Think, "t"⟩,
           ChatCompletionEvent.Message ⟨ChatCompletionMessageType.Msg, "a"⟩,
           ChatCompletionEvent.Finish "length"] := by
  refine ⟨rfl, ?_⟩
  have h := c1_event_order_single_finish
    [SsePoll.openEv, thinkFrame "t", textFrame "a", stopFrame "length"] rfl
  rw [h.1]
  rfl

/-- C2: for a parsed "message" payload of type "think", a `Think` fragment
with the `content` field is emitted exactly when that content is non-empty;
for type "text", exactly one `Msg` fragment with the `msg` field (defaulting
to the empty string) is emitted unconditionally. -/
theorem c2_think_text_classification (v : Json) :
    (Json.getStr v "type" = "think" →
      emit (SsePoll.message "message" (some v))
        = if Json.getStr v "content" = "" then []
          else [ChatCompletionEvent.Message
                  ⟨ChatCompletionMessageType.Think, Json.getStr v "content"⟩])
    ∧ (Json.getStr v "type" = "text" →
      emit (SsePoll.message "message" (some v))
        = [ChatCompletionEvent.Message ⟨ChatCompletionMessageType.Msg, Json.getStr v "msg"⟩]) := by
  constructor
  · intro h
    simp [emit, h]
  · intro h
    simp [emit, h]

/-- C2 witness: a think frame with content "hello" emits one `Think`
fragment; a think frame with empty content emits nothing; a text frame with
no `msg` field emits one empty `Msg` fragment. -/
theorem c2_witness :
    emit (SsePoll.message "message"
        (some (Json.obj [("type", Json.str "think"), ("content", Json.str "hello")])))
      = [ChatCompletionEvent.Message ⟨ChatCompletionMessageType.Think, "hello"⟩]
    ∧ emit (SsePoll.message "message"
        (some (Json.obj [("type", Json.str "think"), ("content", Json.str "")])))
      = []
    ∧ emit (SsePoll.message "message" (some (Json.obj [("type", Json.str "text")])))
      = [ChatCompletionEvent.Message ⟨ChatCompletionMessageType.Msg, ""⟩] := by
  refine ⟨?_, ?_, ?_⟩
  · rw [(c2_think_text_classification
      (Json.obj [("type", Json.str "think"), ("content", Json.str "hello")])).1 rfl]
    rfl
  · rw [(c2_think_text_classification
      (Json.obj [("type", Json.str "think"), ("content", Json.str "")])).1 rfl]
    rfl
  · rw [(c2_think_text_classification (Json.obj [("type", Json.str "text")])).2 rfl]
    rfl

/-- C3: a cleanly ending stream finishes with `Finish(r)` where `r` is the
`stopReason` of the last frame whose type was neither "think" nor "text" and
whose `stopReason` was non-empty, defaulting to "stop" when no frame ever set
one — later non-terminal frames after the setting frame do not change it. -/
theorem c3_finish_reason_last_stop (polls : List SsePoll)
    (h : polls.all SsePoll.isData = true) :
    processSse "stop" polls
      = (polls.map emit).flatten
        ++ [ChatCompletionEvent.Finish ((polls.filterMap stopReasonOf).getLastD "stop")] := by
  rw [processSse_clean_decomp polls "stop" h, foldl_updateReason]

/-- C3 witness: no `stopReason` at all gives `Finish "stop"`; a frame setting
"length" followed by a later non-terminal frame still gives `Finish "length"`. -/
theorem c3_witness :
    processSse "stop" [textFrame "a"]
      = [ChatCompletionEvent.Message ⟨ChatCompletionMessageType.Msg, "a"⟩,
         ChatCompletionEvent.Finish "stop"]
    ∧ processSse "stop" [stopFrame "length", thinkFrame "z"]
      = [ChatCompletionEvent.Message ⟨ChatCompletionMessageType.Think, "z"⟩,
         ChatCompletionEvent.Finish "length"] := by
  constructor
  · rw [c3_finish_reason_last_stop [textFrame "a"] rfl]
    rfl
  · rw [c3_finish_reason_last_stop [stopFrame "length", thinkFrame "z"] rfl]
    rfl

/-- C5: a stream failing with a mid-stream transport error (any stream error
other than the clean `StreamEnded` signal) delivers exactly the events
classified before the error and then closes the channel with no `Finish`. -/
theorem c5_transport_error_closes_without_finish (pre rest : List SsePoll)
    (h : pre.all SsePoll.isData = true) :
    processSse "stop" (pre ++ SsePoll.errOther :: rest) = (pre.map emit).flatten
    ∧ ∀ e ∈ processSse "stop" (pre ++ SsePoll.errOther :: rest), e.isFinish = false := by
  have hd := processSse_errOther pre "stop" rest h
  refine ⟨hd, ?_⟩
  intro e he
  rw [hd] at he
  exact flatten_emit_not_finish pre e he

/-- C5 witness: a text frame followed by a transport error yields that one
fragment and no `Finish`. -/
theorem c5_witness :
    ([textFrame "a"].all SsePoll.isData = true)
    ∧ processSse "stop" ([textFrame "a"] ++ SsePoll.errOther :: [])
        = [ChatCompletionEvent.Message ⟨ChatCompletionMessageType.Msg, "a"⟩] := by
  refine ⟨rfl, ?_⟩
  rw [(c5_transport_error_closes_without_finish [textFrame "a"] [] rfl).1]
  rfl

/-- C6 counterexample: a request whose SSE handshake fails (the stream errors
before any event arrives, a non-success status or transport error at first
poll) still gets `Ok` from `create_completion` — the caller receives a
channel, which then closes with no event and no `Finish`.  This is because
`EventSource::new` is lazy: it performs no network traffic and cannot observe
the handshake outcome, so the claimed synchronous error never happens there. -/
theorem c6_counterexample :
    create_completion req0 UpstreamOpen.ok [SsePoll.errOther]
      = Except.ok ([] : List ChatCompletionEvent) := rfl

/-- C6 amended: `create_completion` fails synchronously (no channel) only
when the `EventSource` cannot be constructed from the request; when the SSE
handshake itself fails — a transport error or non-success status surfacing as
a stream error before any event — the caller has already received a channel,
and that channel closes without any event and without a `Finish`. -/
theorem c6_open_error_behavior (request : ChatCompletionRequest) (polls : List SsePoll)
    (h : request.messages.msgs ≠ []) :
    create_completion request UpstreamOpen.failed polls
        = Except.error CompletionError.cannotCreateSource
    ∧ create_completion request UpstreamOpen.ok (SsePoll.errOther :: polls)
        = Except.ok ([] : List ChatCompletionEvent) := by
  have hr : ∃ s, render request.messages = Except.ok s := by
    rcases request with ⟨⟨ms⟩, model⟩
    rcases ms with _ | ⟨m, ms'⟩
    · exact absurd rfl h
    · rcases ms' with _ | ⟨m₂, rest⟩
      · exact ⟨_, rfl⟩
      · exact ⟨_, rfl⟩
  obtain ⟨s, hs⟩ := hr
  constructor
  · simp [create_completion, hs]
  · simp [create_completion, hs, processSse]

/-- C6 witness: the amended behavior at the concrete request `req0`. -/
theorem c6_witness :
    req0.messages.msgs ≠ []
    ∧ create_completion req0 UpstreamOpen.failed []
        = Except.error CompletionError.cannotCreateSource
    ∧ create_completion req0 UpstreamOpen.ok (SsePoll.errOther :: [])
        = Except.ok ([] : List ChatCompletionEvent) := by
  refine ⟨List.cons_ne_nil _ _, ?_, ?_⟩
  · exact (c6_open_error_behavior req0 [] (List.cons_ne_nil _ _)).1
  · exact (c6_open_error_behavior req0 [] (List.cons_ne_nil _ _)).2
